import Mathlib

/-!
Verification development for the eyeris analysis apps
(src/eyeris_org_app.py and src/eyeris_app.py).

The two Python files share the same request helpers (post_analysis,
get_analysis_result) and device pipeline (analyze_device); the org app adds
the organization-wide loop.  These are embedded below as pure functions:
the network is an explicit oracle assigning an outcome to every attempt,
JSON bodies are an explicit inductive value type with Python truthiness,
and wall-clock readings are explicit integer-millisecond parameters.
-/

/-- JSON values as manipulated by the Python code (parsed response bodies). -/
inductive JValue where
  | jNull : JValue
  | jBool : Bool → JValue
  | jNum : Int → JValue
  | jStr : String → JValue
  | jArr : List JValue → JValue
  | jObj : List (String × JValue) → JValue

/-- A JSON object / Python dict with string keys, in insertion order. -/
abbrev JObj := List (String × JValue)

/-- Python dict.get: look a key up, None when absent. -/
def jget (o : JObj) (k : String) : Option JValue :=
  o.lookup k

/-- Python truthiness of a JSON value. -/
def JValue.truthy : JValue → Bool
  | .jNull => false
  | .jBool b => b
  | .jNum n => n != 0
  | .jStr s => s != ""
  | .jArr l => !l.isEmpty
  | .jObj l => !l.isEmpty

/-- Python truthiness of the result of dict.get (None is falsy). -/
def pyTruthy : Option JValue → Bool
  | none => false
  | some v => v.truthy

/-- The failure dict literal the source builds: a single "error" entry. -/
def errObj (msg : String) : JObj := [("error", JValue.jStr msg)]

/-- What the network does on one HTTP attempt: either a response carrying a
status code, the parsed JSON body (read on status 200) and the body text
(read on other statuses), or an aiohttp.ClientError with its message. -/
inductive AttemptOutcome where
  | response : Nat → JObj → String → AttemptOutcome
  | clientError : String → AttemptOutcome

/-- The retry loop of post_analysis (eyeris_org_app.py lines 56-71,
eyeris_app.py lines 53-68).  First argument of the recursion is the 0-based
attempt index, second is the number of attempts still allowed
(retries - attempt).  Returns the dict the Python function returns, the
number of HTTP attempts made, and the list of backoff sleeps performed. -/
def postAnalysisLoop (backoff : Nat) (net : Nat → AttemptOutcome) :
    Nat → Nat → JObj × Nat × List Nat
  | _, 0 => (errObj "Max retries reached", 0, [])
  | attempt, r + 1 =>
    match net attempt with
    | .response code body text =>
      if code = 200 then (body, 1, [])
      else if code = 429 then
        let w := backoff * 2 ^ attempt
        let rest := postAnalysisLoop backoff net (attempt + 1) r
        (rest.1, rest.2.1 + 1, w :: rest.2.2)
      else (errObj ("HTTP " ++ toString code ++ ": " ++ text), 1, [])
    | .clientError msg =>
      if r = 0 then (errObj msg, 1, [])
      else
        let w := backoff * 2 ^ attempt
        let rest := postAnalysisLoop backoff net (attempt + 1) r
        (rest.1, rest.2.1 + 1, w :: rest.2.2)

/-- post_analysis: retrying POST executor (eyeris_org_app.py lines 54-71). -/
def post_analysis (backoff retries : Nat) (net : Nat → AttemptOutcome) :
    JObj × Nat × List Nat :=
  postAnalysisLoop backoff net 0 retries

/-- The retry loop of get_analysis_result (eyeris_org_app.py lines 75-90):
identical to postAnalysisLoop except that a 200 body is wrapped as
a single-entry dict with key "data". -/
def getAnalysisLoop (backoff : Nat) (net : Nat → AttemptOutcome) :
    Nat → Nat → JObj × Nat × List Nat
  | _, 0 => (errObj "Max retries reached", 0, [])
  | attempt, r + 1 =>
    match net attempt with
    | .response code body text =>
      if code = 200 then ([("data", JValue.jObj body)], 1, [])
      else if code = 429 then
        let w := backoff * 2 ^ attempt
        let rest := getAnalysisLoop backoff net (attempt + 1) r
        (rest.1, rest.2.1 + 1, w :: rest.2.2)
      else (errObj ("HTTP " ++ toString code ++ ": " ++ text), 1, [])
    | .clientError msg =>
      if r = 0 then (errObj msg, 1, [])
      else
        let w := backoff * 2 ^ attempt
        let rest := getAnalysisLoop backoff net (attempt + 1) r
        (rest.1, rest.2.1 + 1, w :: rest.2.2)

/-- get_analysis_result: retrying GET executor (eyeris_org_app.py lines 73-90). -/
def get_analysis_result (backoff retries : Nat) (net : Nat → AttemptOutcome) :
    JObj × Nat × List Nat :=
  getAnalysisLoop backoff net 0 retries

/-- The fixed list of analysis kinds (eyeris_org_app.py line 94). -/
def analysisTypes : List String := ["Roaming", "Coverage", "Congestion", "Interference"]

/-- One submission request body as built in analyze_device (lines 111-116):
device id, upper-cased kind, and the shared from/to window as strings. -/
structure AnalysisRequest where
  agentId : String
  type : String
  fromMs : String
  toMs : String

/-- The four submission bodies of one analyze_device invocation
(eyeris_org_app.py lines 110-116).  now and twoHoursAgo are the two
epoch-millisecond values computed once at lines 99-100. -/
def submissionRequests (deviceId : String) (now twoHoursAgo : Int) :
    List AnalysisRequest :=
  analysisTypes.map fun k =>
    ⟨deviceId, k.toUpper, toString twoHoursAgo, toString now⟩

/-- Post-phase processing of one submission result (lines 122-130): inl a
dict means a failure entry is recorded immediately for that kind, inr means
the kind proceeds to the poll phase. -/
def postPhaseEntry (body : JObj) : JObj ⊕ Unit :=
  if pyTruthy (jget body "error") then Sum.inl body
  else if !pyTruthy (jget body "requestId") || !pyTruthy (jget body "requestQueueId") then
    Sum.inl (errObj "Invalid analysis response")
  else Sum.inr ()

/-- What one analyze_device invocation produced: the four submission request
bodies, the kinds for which a poll (GET) was issued, and the
analysis_results dict in its Python insertion order. -/
structure DeviceRun where
  requests : List AnalysisRequest
  polled : List String
  results : List (String × JObj)

/-- The dict post_analysis handed back for kind k in analyze_device's submit
phase (line 117 calls it with the defaults retries 3, backoff_factor 1).
The getD default stands for a task that raised instead; it is only ever
consulted when no task raised. -/
def postBodyOf (postNet : String → Option (Nat → AttemptOutcome)) (k : String) : JObj :=
  (post_analysis 1 3 ((postNet k).getD fun _ => AttemptOutcome.clientError "")).1

/-- The submit-phase results in kind order (line 118's post_results). -/
def submitPhase (postNet : String → Option (Nat → AttemptOutcome)) :
    List (String × JObj) :=
  analysisTypes.map fun k => (k, postBodyOf postNet k)

/-- The failure entries recorded while processing the submit results
(lines 122-130). -/
def submitFailEntries (postNet : String → Option (Nat → AttemptOutcome)) :
    List (String × JObj) :=
  (submitPhase postNet).filterMap fun p =>
    match postPhaseEntry p.2 with
    | Sum.inl v => some (p.1, v)
    | Sum.inr _ => none

/-- The kinds for which a poll task is created (lines 131-132). -/
def polledKinds (postNet : String → Option (Nat → AttemptOutcome)) : List String :=
  (submitPhase postNet).filterMap fun p =>
    match postPhaseEntry p.2 with
    | Sum.inl _ => none
    | Sum.inr _ => some p.1

/-- The poll-phase entries (lines 134-137), in polled-kind order. -/
def pollEntries (postNet getNet : String → Option (Nat → AttemptOutcome)) :
    List (String × JObj) :=
  (polledKinds postNet).map fun k =>
    (k, (get_analysis_result 1 3 ((getNet k).getD fun _ => AttemptOutcome.clientError "")).1)

/-- The exception analyze_device itself raises when a gathered task raised:
asyncio.gather(return_exceptions=True) hands the exception object back and
the tuple unpacking at line 122 (or 136) then raises TypeError. -/
def unpackError : String := "TypeError: cannot unpack non-iterable exception object"

/-- analyze_device (eyeris_org_app.py lines 92-139).  t1 and t2 are the two
wall-clock readings of lines 99 and 100 in epoch milliseconds (the source
calls datetime.now() twice).  postNet and getNet give, per analysis kind,
the network oracle of that kind's task; none means the task raised an
exception that escapes the aiohttp.ClientError handler, in which case the
unpacking of the gathered results raises and analyze_device throws. -/
def analyze_device (deviceId : String) (t1 t2 : Int)
    (postNet getNet : String → Option (Nat → AttemptOutcome)) :
    Except String DeviceRun :=
  let now := t1
  let twoHoursAgo := t2 - 7200000
  let reqs := submissionRequests deviceId now twoHoursAgo
  if analysisTypes.any fun k => (postNet k).isNone then Except.error unpackError
  else if (polledKinds postNet).any fun k => (getNet k).isNone then
    Except.error unpackError
  else
    Except.ok ⟨reqs, polledKinds postNet,
      submitFailEntries postNet ++ pollEntries postNet getNet⟩

/-- One entry of the org app's device list: (name, nickname, id). -/
abbrev OrgDevice := String × String × String

/-- The organization-analysis loop (eyeris_org_app.py lines 373-382):
iterate the device list in order, run the pipeline, store
(id ↦ (name, nickname, results)) and emit progress (i+1)/total after each
device; an exception escaping a pipeline halts the whole loop.  Returns the
stored map, the progress values emitted, and the escaped exception if any. -/
def orgRunLoop (pipeline : String → Except String DeviceRun) (total : Nat) :
    Nat → List OrgDevice →
      List (String × String × String × List (String × JObj)) × List ℚ × Option String
  | _, [] => ([], [], none)
  | i, d :: rest =>
    match pipeline d.2.2 with
    | Except.error e => ([], [], some e)
    | Except.ok dr =>
      let out := orgRunLoop pipeline total (i + 1) rest
      ((d.2.2, d.1, d.2.1, dr.results) :: out.1,
       (((i : ℚ) + 1) / (total : ℚ)) :: out.2.1, out.2.2)

/-- The org_analyze_button handler's whole run over a device list. -/
def orgRun (pipeline : String → Except String DeviceRun) (devices : List OrgDevice) :
    List (String × String × String × List (String × JObj)) × List ℚ × Option String :=
  orgRunLoop pipeline devices.length 0 devices

/-- Modelled from the spec: the repository source contains no RateLimiter
component (spec section 4.1 describes one, but neither Python file defines
it), so the token bucket's configuration is modelled from the spec text:
a refill rate in tokens per second and a capacity. -/
structure RLConfig where
  rate : ℚ
  capacity : ℚ

/-- Modelled from the spec: the RateLimiter's mutable state — a token count
bounded in [0, capacity] and the timestamp of the last refill. -/
structure RLState where
  tokens : ℚ
  lastRefill : ℚ

/-- Modelled from the spec: refill tokens for the elapsed time at the
configured rate, clamped at capacity, and stamp the refill time. -/
def refill (cfg : RLConfig) (s : RLState) (now : ℚ) : RLState :=
  ⟨min cfg.capacity (s.tokens + (now - s.lastRefill) * cfg.rate), now⟩

/-- Modelled from the spec: acquire — refill; if fewer than one token is
available, wait exactly (1 - tokens)/rate, refill again from the new now;
deduct one token.  Returns the new state and the wait that was slept;
acquire is total: it never rejects a caller. -/
def acquire (cfg : RLConfig) (s : RLState) (now : ℚ) : RLState × ℚ :=
  let s1 := refill cfg s now
  if s1.tokens < 1 then
    let wait := (1 - s1.tokens) / cfg.rate
    let s2 := refill cfg s1 (now + wait)
    (⟨s2.tokens - 1, s2.lastRefill⟩, wait)
  else
    (⟨s1.tokens - 1, s1.lastRefill⟩, 0)

/-- Modelled from the spec: a sequence of acquire calls; each list element
is the (nonnegative) delay from the previous refill stamp to the call. -/
def acquireSeq (cfg : RLConfig) : RLState → List ℚ → RLState
  | s, [] => s
  | s, d :: ds => acquireSeq cfg (acquire cfg s (s.lastRefill + d)).1 ds

/-- Modelled from the spec: the spec's RetryingRequestExecutor acquires a
rate-limiter token before sending every attempt, retries included
(section 4.2); the source's post_analysis has no limiter, so the
composition is modelled here.  Arguments after the oracle: limiter state,
current clock, attempt index, attempts still allowed.  Returns the result
dict, the attempts made, the acquires made, and the final limiter state. -/
def ratedPostLoop (cfg : RLConfig) (backoff : Nat) (net : Nat → AttemptOutcome) :
    RLState → ℚ → Nat → Nat → JObj × Nat × Nat × RLState
  | s, _, _, 0 => (errObj "Max retries reached", 0, 0, s)
  | s, clock, attempt, r + 1 =>
    let a := acquire cfg s clock
    let resume := clock + a.2
    match net attempt with
    | .response code body text =>
      if code = 200 then (body, 1, 1, a.1)
      else if code = 429 then
        let w : ℚ := (backoff : ℚ) * 2 ^ attempt
        let rest := ratedPostLoop cfg backoff net a.1 (resume + w) (attempt + 1) r
        (rest.1, rest.2.1 + 1, rest.2.2.1 + 1, rest.2.2.2)
      else (errObj ("HTTP " ++ toString code ++ ": " ++ text), 1, 1, a.1)
    | .clientError msg =>
      if r = 0 then (errObj msg, 1, 1, a.1)
      else
        let w : ℚ := (backoff : ℚ) * 2 ^ attempt
        let rest := ratedPostLoop cfg backoff net a.1 (resume + w) (attempt + 1) r
        (rest.1, rest.2.1 + 1, rest.2.2.1 + 1, rest.2.2.2)

/-- A submission response body carrying valid correlation ids. -/
def handleBody : JObj :=
  [("requestId", JValue.jStr "r1"), ("requestQueueId", JValue.jStr "q1")]

/-- Network oracle: every kind's submission succeeds with valid ids. -/
def okPostNet : String → Option (Nat → AttemptOutcome) :=
  fun _ => some fun _ => AttemptOutcome.response 200 handleBody ""

/-- Network oracle: every kind's poll succeeds with a response text. -/
def okGetNet : String → Option (Nat → AttemptOutcome) :=
  fun _ => some fun _ =>
    AttemptOutcome.response 200 [("response", JValue.jStr "All good")] ""

/-- Network oracle: Congestion's submission gets HTTP 500, the rest succeed. -/
def congestion500PostNet : String → Option (Nat → AttemptOutcome) :=
  fun k =>
    if k = "Congestion" then
      some fun _ => AttemptOutcome.response 500 [] "Internal Server Error"
    else okPostNet k

/-- Task behavior: Roaming's submission task raises an exception that is not
an aiohttp.ClientError (for example asyncio.TimeoutError), the rest succeed. -/
def roamingRaisesPostNet : String → Option (Nat → AttemptOutcome) :=
  fun k => if k = "Roaming" then none else okPostNet k

/-- Network oracle: Congestion's submission returns 200 with an empty body,
the rest succeed with valid ids. -/
def emptyBodyPostNet : String → Option (Nat → AttemptOutcome) :=
  fun k =>
    if k = "Congestion" then some fun _ => AttemptOutcome.response 200 [] ""
    else okPostNet k

/-- Network oracle: Congestion's submission returns 200 with a present but
empty-string requestId, the rest succeed with valid ids. -/
def falsyIdPostNet : String → Option (Nat → AttemptOutcome) :=
  fun k =>
    if k = "Congestion" then
      some fun _ => AttemptOutcome.response 200
        [("requestId", JValue.jStr ""), ("requestQueueId", JValue.jStr "q1")] ""
    else okPostNet k

/-! ## Helper lemmas about the retry loop -/

/-- If every attempt is answered 429, the loop exhausts its budget: the
result is the "Max retries reached" failure dict and every allowed attempt
is made. -/
theorem postLoop_all429 (backoff : Nat) (net : Nat → AttemptOutcome)
    (h : ∀ n, ∃ b t, net n = AttemptOutcome.response 429 b t) :
    ∀ r attempt, (postAnalysisLoop backoff net attempt r).1 = errObj "Max retries reached"
      ∧ (postAnalysisLoop backoff net attempt r).2.1 = r := by
  intro r
  induction r with
  | zero => intro attempt; exact ⟨rfl, rfl⟩
  | succ r ih =>
    intro attempt
    obtain ⟨b, t, hbt⟩ := h attempt
    have hr := ih (attempt + 1)
    simp [postAnalysisLoop, hbt, hr.1, hr.2]

/-- If every attempt raises aiohttp.ClientError with message msg, the loop
returns the failure dict carrying that message (not "Max retries reached"),
after making every allowed attempt. -/
theorem postLoop_allClientError (backoff : Nat) (net : Nat → AttemptOutcome)
    (msg : String) (h : ∀ n, net n = AttemptOutcome.clientError msg) :
    ∀ r attempt, 0 < r →
      (postAnalysisLoop backoff net attempt r).1 = errObj msg
      ∧ (postAnalysisLoop backoff net attempt r).2.1 = r := by
  intro r
  induction r with
  | zero => intro _ h0; exact absurd h0 (lt_irrefl 0)
  | succ r ih =>
    intro attempt _
    rcases Nat.eq_zero_or_pos r with hr | hr
    · subst hr; simp [postAnalysisLoop, h attempt]
    · have hrec := ih (attempt + 1) hr
      simp [postAnalysisLoop, h attempt, Nat.pos_iff_ne_zero.mp hr, hrec.1, hrec.2]

/-! ## C1: exhausting the retry budget -/

/-- C1 counterexample: when all three attempts fail with the same
transport-level error (aiohttp.ClientError "Connection refused"),
post_analysis does make exactly retries = 3 attempts, but its failure
reason is the transport error text, not "Max retries reached" — refuting
the claim that repeated transport-level errors end in the reason
"Max retries reached". -/
theorem C1_transport_error_reason_counterexample :
    (post_analysis 1 3 (fun _ => AttemptOutcome.clientError "Connection refused")).1
      ≠ errObj "Max retries reached"
    ∧ (post_analysis 1 3 (fun _ => AttemptOutcome.clientError "Connection refused")).2.1 = 3 := by
  refine ⟨fun h => ?_, rfl⟩
  have h2 : errObj "Connection refused" = errObj "Max retries reached" :=
    Eq.trans (by rfl) h
  have h3 := congrArg (fun o => match o with
    | (_, JValue.jStr s) :: _ => s
    | _ => "") h2
  exact absurd h3 (by decide)

/-- C1 (amended): after retries consecutive 429 responses the executor
returns the terminal failure "Max retries reached" having made exactly
retries attempts; after retries consecutive transport-level errors it makes
exactly retries attempts and returns a terminal failure carrying the
transport error text (not "Max retries reached"). -/
theorem C1_retry_budget_exhaustion (backoff retries : Nat) (msg : String)
    (net429 netErr : Nat → AttemptOutcome)
    (h429 : ∀ n, ∃ b t, net429 n = AttemptOutcome.response 429 b t)
    (herr : ∀ n, netErr n = AttemptOutcome.clientError msg)
    (hr : 0 < retries) :
    (post_analysis backoff retries net429).1 = errObj "Max retries reached"
    ∧ (post_analysis backoff retries net429).2.1 = retries
    ∧ (post_analysis backoff retries netErr).1 = errObj msg
    ∧ (post_analysis backoff retries netErr).2.1 = retries := by
  have ha := postLoop_all429 backoff net429 h429 retries 0
  have hb := postLoop_allClientError backoff netErr msg herr retries 0 hr
  exact ⟨ha.1, ha.2, hb.1, hb.2⟩

/-- Witness for C1_retry_budget_exhaustion at backoff 1, retries 3, a network
answering 429 forever and a network raising ClientError "timeout" forever. -/
theorem C1_retry_budget_exhaustion_witness :
    (post_analysis 1 3 (fun _ => AttemptOutcome.response 429 [] "busy")).1
      = errObj "Max retries reached"
    ∧ (post_analysis 1 3 (fun _ => AttemptOutcome.response 429 [] "busy")).2.1 = 3
    ∧ (post_analysis 1 3 (fun _ => AttemptOutcome.clientError "timeout")).1 = errObj "timeout"
    ∧ (post_analysis 1 3 (fun _ => AttemptOutcome.clientError "timeout")).2.1 = 3 :=
  C1_retry_budget_exhaustion 1 3 "timeout" _ _
    (fun _ => ⟨[], "busy", rfl⟩) (fun _ => rfl) (by decide)

/-! ## C6: immediate terminal failure on other non-2xx statuses -/

/-- C6: an attempt answered with a status that is neither 200 nor 429 (for
example 500 on attempt 1) makes both executors return immediately: exactly
one attempt, no backoff sleeps, and the failure reason carries the status
code and the response body text. -/
theorem C6_terminal_http_error_immediate (backoff retries : Nat)
    (net : Nat → AttemptOutcome) (code : Nat) (body : JObj) (text : String)
    (hr : 0 < retries) (h0 : net 0 = AttemptOutcome.response code body text)
    (h200 : code ≠ 200) (h429 : code ≠ 429) :
    post_analysis backoff retries net
      = (errObj ("HTTP " ++ toString code ++ ": " ++ text), 1, [])
    ∧ get_analysis_result backoff retries net
      = (errObj ("HTTP " ++ toString code ++ ": " ++ text), 1, []) := by
  obtain ⟨r, rfl⟩ := Nat.exists_eq_add_of_lt hr
  constructor
  · simp [post_analysis, postAnalysisLoop, h0, h200, h429]
  · simp [get_analysis_result, getAnalysisLoop, h0, h200, h429]

/-- Witness for C6 at a 500 response with body text "oops" on attempt 1. -/
theorem C6_terminal_http_error_immediate_witness :
    post_analysis 1 3 (fun _ => AttemptOutcome.response 500 [] "oops")
      = (errObj ("HTTP " ++ toString 500 ++ ": " ++ "oops"), 1, [])
    ∧ get_analysis_result 1 3 (fun _ => AttemptOutcome.response 500 [] "oops")
      = (errObj ("HTTP " ++ toString 500 ++ ": " ++ "oops"), 1, []) :=
  C6_terminal_http_error_immediate 1 3 _ 500 [] "oops" (by decide) rfl
    (by decide) (by decide)

/-! ## C7: 429 then 200 -/

/-- C7: when attempt 1 is answered 429 and attempt 2 is answered 200,
post_analysis returns the parsed 200 body as success after exactly two
attempts, and the single backoff sleep before attempt 2 lasts
backoff_factor * 2 ^ 0. -/
theorem C7_success_after_one_429 (backoff : Nat) (net : Nat → AttemptOutcome)
    (b429 : JObj) (t429 : String) (body : JObj) (t200 : String)
    (h0 : net 0 = AttemptOutcome.response 429 b429 t429)
    (h1 : net 1 = AttemptOutcome.response 200 body t200) :
    post_analysis backoff 3 net = (body, 2, [backoff * 2 ^ 0]) := by
  simp [post_analysis, postAnalysisLoop, h0, h1]

/-- Witness for C7 at backoff 1 and a network answering 429 then 200. -/
theorem C7_success_after_one_429_witness :
    post_analysis 1 3
      (fun n => if n = 0 then AttemptOutcome.response 429 [] "busy"
                else AttemptOutcome.response 200 handleBody "")
      = (handleBody, 2, [1 * 2 ^ 0]) :=
  C7_success_after_one_429 1 _ [] "busy" handleBody "" rfl rfl

/-! ## C2: RateLimiter invariants (modelled from the spec) -/

/-- One acquire keeps the token count inside [0, capacity], returns a
nonnegative wait, deducts exactly one token from an admitted balance of at
least one token, and never moves the refill stamp backwards. -/
theorem acquire_step (cfg : RLConfig) (s : RLState) (now : ℚ)
    (hrate : 0 < cfg.rate) (hcap : 1 ≤ cfg.capacity) :
    0 ≤ (acquire cfg s now).1.tokens
    ∧ (acquire cfg s now).1.tokens ≤ cfg.capacity
    ∧ 0 ≤ (acquire cfg s now).2
    ∧ ∃ pre, 1 ≤ pre ∧ (acquire cfg s now).1.tokens = pre - 1 := by
  unfold acquire refill
  set t1 := min cfg.capacity (s.tokens + (now - s.lastRefill) * cfg.rate) with ht1
  by_cases h : t1 < 1
  · have hw : 0 ≤ (1 - t1) / cfg.rate := div_nonneg (by linarith) hrate.le
    have ht2 : min cfg.capacity (t1 + (now + (1 - t1) / cfg.rate - now) * cfg.rate) = 1 := by
      have h5 : now + (1 - t1) / cfg.rate - now = (1 - t1) / cfg.rate := by ring
      have h4 : t1 + (now + (1 - t1) / cfg.rate - now) * cfg.rate = 1 := by
        rw [h5, div_mul_cancel₀ _ (ne_of_gt hrate)]; ring
      rw [h4, min_eq_right hcap]
    simp only [if_pos h, ht2]
    refine ⟨by norm_num, by linarith, hw, 1, le_refl 1, by norm_num⟩
  · push_neg at h
    have hle : t1 ≤ cfg.capacity := min_le_left _ _
    simp only [if_neg (not_lt.mpr h)]
    exact ⟨by linarith, by linarith, le_refl 0, t1, h, rfl⟩

/-- Over any sequence of acquire calls, a token count that starts inside
[0, capacity] stays inside [0, capacity]. -/
theorem acquireSeq_bounds (cfg : RLConfig) (hrate : 0 < cfg.rate)
    (hcap : 1 ≤ cfg.capacity) :
    ∀ (ds : List ℚ) (s : RLState), 0 ≤ s.tokens → s.tokens ≤ cfg.capacity →
      0 ≤ (acquireSeq cfg s ds).tokens ∧ (acquireSeq cfg s ds).tokens ≤ cfg.capacity := by
  intro ds
  induction ds with
  | nil => intro s h0 h1; exact ⟨h0, h1⟩
  | cons d rest ih =>
    intro s _ _
    have hs := acquire_step cfg s (s.lastRefill + d) hrate hcap
    exact ih _ hs.1 hs.2.1

/-- In the spec's executor every attempt, retries included, is preceded by
exactly one rate-limiter acquire: the acquire count equals the attempt
count. -/
theorem ratedPost_acquires_eq_attempts (cfg : RLConfig) (backoff : Nat)
    (net : Nat → AttemptOutcome) :
    ∀ (r : Nat) (s : RLState) (clock : ℚ) (attempt : Nat),
      (ratedPostLoop cfg backoff net s clock attempt r).2.2.1
        = (ratedPostLoop cfg backoff net s clock attempt r).2.1 := by
  intro r
  induction r with
  | zero => intro s clock attempt; rfl
  | succ r ih =>
    intro s clock attempt
    unfold ratedPostLoop
    cases hn : net attempt with
    | response code body text =>
      by_cases h200 : code = 200
      · simp [h200]
      · by_cases h429 : code = 429 <;> simp [h200, h429, ih]
    | clientError msg =>
      by_cases h : r = 0 <;> simp [h, ih]

/-- C2: (a) after every possible sequence of acquire calls the shared
RateLimiter's token count stays within [0, capacity]; (b) acquire never
rejects — it is total, returns after a nonnegative finite wait, and admits
the caller after deducting exactly one token from a balance of at least
one; (c) every outbound HTTP attempt of the executor, retries included,
first passes through the limiter: acquires made equal attempts made.
(RateLimiter and its executor composition are modelled from the spec:
the source has no RateLimiter.) -/
theorem C2_rate_limiter_invariants :
    (∀ (cfg : RLConfig) (s : RLState) (ds : List ℚ),
      0 < cfg.rate → 1 ≤ cfg.capacity → 0 ≤ s.tokens → s.tokens ≤ cfg.capacity →
      0 ≤ (acquireSeq cfg s ds).tokens ∧ (acquireSeq cfg s ds).tokens ≤ cfg.capacity)
    ∧ (∀ (cfg : RLConfig) (s : RLState) (now : ℚ),
      0 < cfg.rate → 1 ≤ cfg.capacity →
      0 ≤ (acquire cfg s now).2
      ∧ ∃ pre, 1 ≤ pre ∧ (acquire cfg s now).1.tokens = pre - 1)
    ∧ (∀ (cfg : RLConfig) (backoff : Nat) (net : Nat → AttemptOutcome)
        (s : RLState) (clock : ℚ) (retries : Nat),
      (ratedPostLoop cfg backoff net s clock 0 retries).2.2.1
        = (ratedPostLoop cfg backoff net s clock 0 retries).2.1) := by
  refine ⟨fun cfg s ds hr hc h0 h1 => acquireSeq_bounds cfg hr hc ds s h0 h1,
    fun cfg s now hr hc => ?_,
    fun cfg backoff net s clock retries =>
      ratedPost_acquires_eq_attempts cfg backoff net retries s clock 0⟩
  have hs := acquire_step cfg s now hr hc
  exact ⟨hs.2.2.1, hs.2.2.2⟩

/-- Witness for C2 at the observed configuration rate 5, capacity 15, a full
bucket, and four immediate acquire calls. -/
theorem C2_rate_limiter_invariants_witness :
    (0 ≤ (acquireSeq ⟨5, 15⟩ ⟨15, 0⟩ [0, 0, 0, 0]).tokens
      ∧ (acquireSeq ⟨5, 15⟩ ⟨15, 0⟩ [0, 0, 0, 0]).tokens ≤ (15 : ℚ))
    ∧ (0 ≤ (acquire ⟨5, 15⟩ ⟨15, 0⟩ 0).2
      ∧ ∃ pre, 1 ≤ pre ∧ (acquire ⟨5, 15⟩ ⟨15, 0⟩ 0).1.tokens = pre - 1) :=
  ⟨C2_rate_limiter_invariants.1 ⟨5, 15⟩ ⟨15, 0⟩ [0, 0, 0, 0]
      (by norm_num) (by norm_num) (by norm_num) (by norm_num),
    C2_rate_limiter_invariants.2.1 ⟨5, 15⟩ ⟨15, 0⟩ 0 (by norm_num) (by norm_num)⟩

/-! ## Helper lemmas about the device pipeline -/

/-- When no submit or poll task raises, analyze_device returns normally with
the four submission requests, the polled kinds and the assembled results. -/
theorem analyze_device_eq_ok (deviceId : String) (t1 t2 : Int)
    (postNet getNet : String → Option (Nat → AttemptOutcome))
    (hpost : ∀ k ∈ analysisTypes, (postNet k).isSome = true)
    (hget : ∀ k ∈ analysisTypes, (getNet k).isSome = true) :
    analyze_device deviceId t1 t2 postNet getNet
      = Except.ok ⟨submissionRequests deviceId t1 (t2 - 7200000),
          polledKinds postNet,
          submitFailEntries postNet ++ pollEntries postNet getNet⟩ := by
  have hsub : ∀ k ∈ polledKinds postNet, k ∈ analysisTypes := by
    intro k hk
    simp only [polledKinds, submitPhase, List.mem_filterMap, List.mem_map] at hk
    obtain ⟨p, ⟨x, hx, rfl⟩, hpe⟩ := hk
    cases h : postPhaseEntry (postBodyOf postNet x) <;> rw [h] at hpe
    · exact absurd hpe (by simp)
    · obtain rfl : x = k := by simpa using hpe
      exact hx
  have g1 : (analysisTypes.any fun k => (postNet k).isNone) = false := by
    simp only [List.any_eq_false, Bool.not_eq_true, Option.isNone_eq_false_iff]
    intro k hk
    exact hpost k hk
  have g2 : ((polledKinds postNet).any fun k => (getNet k).isNone) = false := by
    simp only [List.any_eq_false, Bool.not_eq_true, Option.isNone_eq_false_iff]
    intro k hk
    exact hget k (hsub k hk)
  simp [analyze_device, g1, g2]

/-- The keys of the assembled result map are a permutation of the keys of
the submit phase: each kind lands either in the fail entries or, via the
polled list, in the poll entries. -/
theorem results_keys_perm (postNet getNet : String → Option (Nat → AttemptOutcome)) :
    ((submitFailEntries postNet ++ pollEntries postNet getNet).map Prod.fst).Perm
      ((submitPhase postNet).map Prod.fst) := by
  unfold submitFailEntries pollEntries polledKinds
  generalize submitPhase postNet = l
  induction l with
  | nil => simp
  | cons p rest ih =>
    cases h : postPhaseEntry p.2 with
    | inl v =>
      simp only [List.filterMap_cons, h, List.map_cons, List.cons_append]
      exact ih.cons p.1
    | inr u =>
      simp only [List.filterMap_cons, h, List.map_cons, List.map_append, List.cons_append]
      refine List.Perm.trans ?_ (List.Perm.cons p.1 ih)
      simp [List.perm_middle]

/-! ## C4: exactly one entry per analysis kind -/

/-- C4: whenever the pipeline returns (no task raised), the result map has
exactly one entry for each of the four analysis kinds — its keys are a
permutation of the kind list, hence four entries, never partial; and in the
concrete scenario where exactly Congestion's submission gets HTTP 500 and
the other three submissions and polls succeed, the result has 4 entries:
1 failure entry and 3 success entries. -/
theorem C4_device_result_four_entries :
    (∀ (deviceId : String) (t1 t2 : Int)
      (postNet getNet : String → Option (Nat → AttemptOutcome)),
      (∀ k ∈ analysisTypes, (postNet k).isSome = true) →
      (∀ k ∈ analysisTypes, (getNet k).isSome = true) →
      ∃ dr, analyze_device deviceId t1 t2 postNet getNet = Except.ok dr
        ∧ (dr.results.map Prod.fst).Perm analysisTypes
        ∧ dr.results.length = 4)
    ∧ ((analyze_device "Dev" 0 0 congestion500PostNet okGetNet).toOption.map
        fun dr => (dr.results.length,
          (dr.results.filter fun e => pyTruthy (jget e.2 "error")).length,
          (dr.results.filter fun e => !pyTruthy (jget e.2 "error")).length))
      = some (4, 1, 3) := by
  constructor
  · intro deviceId t1 t2 postNet getNet hpost hget
    refine ⟨_, analyze_device_eq_ok deviceId t1 t2 postNet getNet hpost hget, ?_, ?_⟩
    · have hperm := results_keys_perm postNet getNet
      have hkeys : (submitPhase postNet).map Prod.fst = analysisTypes := by
        simp only [submitPhase, List.map_map]
        exact List.map_id _
      rw [hkeys] at hperm
      exact hperm
    · have hperm := results_keys_perm postNet getNet
      have := hperm.length_eq
      simp only [List.length_map, submitPhase] at this
      simpa [analysisTypes] using this
  · rfl

/-- Witness for the universally quantified half of C4, at an all-success
network. -/
theorem C4_device_result_four_entries_witness :
    ∃ dr, analyze_device "Dev" 0 0 okPostNet okGetNet = Except.ok dr
      ∧ (dr.results.map Prod.fst).Perm analysisTypes
      ∧ dr.results.length = 4 :=
  C4_device_result_four_entries.1 "Dev" 0 0 okPostNet okGetNet
    (by decide) (by decide)

/-! ## C5, C10: invalid submission responses never reach the poll phase -/

/-- If kind k's submit task completed with a dict whose "error" lookup and
one of the two correlation-id lookups are Python-falsy, the pipeline records
the "Invalid analysis response" failure for k and issues no poll for k. -/
theorem falsy_handle_contained (deviceId : String) (t1 t2 : Int)
    (postNet getNet : String → Option (Nat → AttemptOutcome)) (k : String)
    (hk : k ∈ analysisTypes)
    (hpost : ∀ x ∈ analysisTypes, (postNet x).isSome = true)
    (hget : ∀ x ∈ analysisTypes, (getNet x).isSome = true)
    (herr : pyTruthy (jget (postBodyOf postNet k) "error") = false)
    (hmiss : pyTruthy (jget (postBodyOf postNet k) "requestId") = false
           ∨ pyTruthy (jget (postBodyOf postNet k) "requestQueueId") = false) :
    ∃ dr, analyze_device deviceId t1 t2 postNet getNet = Except.ok dr
      ∧ (k, errObj "Invalid analysis response") ∈ dr.results
      ∧ k ∉ dr.polled := by
  have hent : postPhaseEntry (postBodyOf postNet k)
      = Sum.inl (errObj "Invalid analysis response") := by
    rcases hmiss with h | h <;> simp [postPhaseEntry, herr, h]
  refine ⟨_, analyze_device_eq_ok deviceId t1 t2 postNet getNet hpost hget, ?_, ?_⟩
  · apply List.mem_append.mpr
    left
    simp only [submitFailEntries, List.mem_filterMap]
    refine ⟨(k, postBodyOf postNet k), ?_, by rw [hent]⟩
    simp only [submitPhase, List.mem_map]
    exact ⟨k, hk, rfl⟩
  · intro hmem
    simp only [polledKinds, submitPhase, List.mem_filterMap, List.mem_map] at hmem
    obtain ⟨p, ⟨x, hx, rfl⟩, hpe⟩ := hmem
    cases h : postPhaseEntry (postBodyOf postNet x) <;> rw [h] at hpe
    · exact absurd hpe (by simp)
    · obtain rfl : x = k := by simpa using hpe
      rw [hent] at h
      exact absurd h (by simp)

/-- C5: a submission that succeeds at the HTTP level (attempt 1 answered
200) but whose body lacks the requestId field or the requestQueueId field
yields the Failure "Invalid analysis response" for that kind, and no poll
(GET) is issued for it. -/
theorem C5_missing_ids_no_poll (deviceId : String) (t1 t2 : Int)
    (postNet getNet : String → Option (Nat → AttemptOutcome)) (k : String)
    (f : Nat → AttemptOutcome) (body : JObj) (text : String)
    (hk : k ∈ analysisTypes)
    (hpost : ∀ x ∈ analysisTypes, (postNet x).isSome = true)
    (hget : ∀ x ∈ analysisTypes, (getNet x).isSome = true)
    (hkf : postNet k = some f)
    (h200 : f 0 = AttemptOutcome.response 200 body text)
    (herr : jget body "error" = none)
    (hmiss : jget body "requestId" = none ∨ jget body "requestQueueId" = none) :
    ∃ dr, analyze_device deviceId t1 t2 postNet getNet = Except.ok dr
      ∧ (k, errObj "Invalid analysis response") ∈ dr.results
      ∧ k ∉ dr.polled := by
  have hbody : postBodyOf postNet k = body := by
    simp [postBodyOf, hkf, post_analysis, postAnalysisLoop, h200]
  apply falsy_handle_contained deviceId t1 t2 postNet getNet k hk hpost hget
  · rw [hbody, herr]; rfl
  · rcases hmiss with h | h
    · exact Or.inl (by rw [hbody, h]; rfl)
    · exact Or.inr (by rw [hbody, h]; rfl)

/-- Witness for C5 at a submission answering 200 with the empty dict for
Congestion. -/
theorem C5_missing_ids_no_poll_witness :
    ∃ dr, analyze_device "Dev" 0 0 emptyBodyPostNet okGetNet = Except.ok dr
      ∧ ("Congestion", errObj "Invalid analysis response") ∈ dr.results
      ∧ "Congestion" ∉ dr.polled :=
  C5_missing_ids_no_poll "Dev" 0 0 emptyBodyPostNet okGetNet "Congestion"
    (fun _ => AttemptOutcome.response 200 [] "") [] ""
    (by decide) (by decide) (by decide) rfl rfl rfl (Or.inl rfl)

/-- C10 (implicit): a submission whose body carries the requestId and
requestQueueId keys but with a Python-falsy value for one of them (empty
string, 0, null or false) is treated exactly like a missing field: the kind
gets the Failure "Invalid analysis response" and no poll is issued for it,
because the source checks truthiness, not key presence. -/
theorem C10_falsy_ids_no_poll (deviceId : String) (t1 t2 : Int)
    (postNet getNet : String → Option (Nat → AttemptOutcome)) (k : String)
    (f : Nat → AttemptOutcome) (body : JObj) (text : String)
    (hk : k ∈ analysisTypes)
    (hpost : ∀ x ∈ analysisTypes, (postNet x).isSome = true)
    (hget : ∀ x ∈ analysisTypes, (getNet x).isSome = true)
    (hkf : postNet k = some f)
    (h200 : f 0 = AttemptOutcome.response 200 body text)
    (herr : jget body "error" = none)
    (hmiss : (∃ v, jget body "requestId" = some v ∧ v.truthy = false)
           ∨ (∃ v, jget body "requestQueueId" = some v ∧ v.truthy = false)) :
    ∃ dr, analyze_device deviceId t1 t2 postNet getNet = Except.ok dr
      ∧ (k, errObj "Invalid analysis response") ∈ dr.results
      ∧ k ∉ dr.polled := by
  have hbody : postBodyOf postNet k = body := by
    simp [postBodyOf, hkf, post_analysis, postAnalysisLoop, h200]
  apply falsy_handle_contained deviceId t1 t2 postNet getNet k hk hpost hget
  · rw [hbody, herr]; rfl
  · rcases hmiss with ⟨v, hv, hvt⟩ | ⟨v, hv, hvt⟩
    · exact Or.inl (by rw [hbody, hv]; simpa [pyTruthy] using hvt)
    · exact Or.inr (by rw [hbody, hv]; simpa [pyTruthy] using hvt)

/-- Witness for C10 at a submission answering 200 with a present but
empty-string requestId for Congestion. -/
theorem C10_falsy_ids_no_poll_witness :
    ∃ dr, analyze_device "Dev" 0 0 falsyIdPostNet okGetNet = Except.ok dr
      ∧ ("Congestion", errObj "Invalid analysis response") ∈ dr.results
      ∧ "Congestion" ∉ dr.polled :=
  C10_falsy_ids_no_poll "Dev" 0 0 falsyIdPostNet okGetNet "Congestion"
    (fun _ => AttemptOutcome.response 200
      [("requestId", JValue.jStr ""), ("requestQueueId", JValue.jStr "q1")] "")
    [("requestId", JValue.jStr ""), ("requestQueueId", JValue.jStr "q1")] ""
    (by decide) (by decide) (by decide) rfl rfl rfl
    (Or.inl ⟨JValue.jStr "", rfl, rfl⟩)

/-! ## C9: the shared time window and the upper-cased kind -/

/-- C9 counterexample: the source reads the wall clock twice (lines 99 and
100), so "from" is the second reading minus two hours, not the submission
time ("to") minus two hours.  With the readings one millisecond apart
(t1 = 1700000000000, t2 = 1700000000001), every request carries
from = "1699992800001" while submission time minus two hours is
"1699992800000". -/
theorem C9_two_clock_reads_counterexample :
    ((analyze_device "D" 1700000000000 1700000000001 okPostNet okGetNet).toOption.map
      fun dr => dr.requests.map fun r => (r.fromMs, r.toMs))
      = some (List.replicate 4 ("1699992800001", "1700000000000"))
    ∧ toString (1700000000000 - 7200000 : Int) = "1699992800000"
    ∧ ("1699992800001" : String) ≠ "1699992800000" :=
  ⟨rfl, rfl, by decide⟩

/-- C9 (amended): all four submission requests of one invocation carry the
device id, the upper-cased kind, and an identical window — "to" is the
first clock reading and "from" is the second clock reading minus two hours;
when the two clock readings coincide (the typical case at millisecond
granularity), "from" is exactly the submission time minus two hours. -/
theorem C9_shared_window_uppercase (deviceId : String) (t1 t2 : Int)
    (postNet getNet : String → Option (Nat → AttemptOutcome)) (dr : DeviceRun)
    (h : analyze_device deviceId t1 t2 postNet getNet = Except.ok dr) :
    dr.requests.map (fun r => (r.agentId, r.type))
      = analysisTypes.map (fun k => (deviceId, k.toUpper))
    ∧ (∀ r ∈ dr.requests, r.fromMs = toString (t2 - 7200000) ∧ r.toMs = toString t1)
    ∧ (t2 = t1 → ∀ r ∈ dr.requests, r.fromMs = toString (t1 - 7200000)) := by
  have hreq : dr.requests = submissionRequests deviceId t1 (t2 - 7200000) := by
    unfold analyze_device at h
    by_cases g1 : (analysisTypes.any fun k => (postNet k).isNone) = true
    · rw [if_pos g1] at h; exact absurd h (by simp)
    · rw [if_neg g1] at h
      by_cases g2 : ((polledKinds postNet).any fun k => (getNet k).isNone) = true
      · rw [if_pos g2] at h; exact absurd h (by simp)
      · rw [if_neg g2] at h
        have := Except.ok.inj h
        rw [← this]
  refine ⟨?_, ?_, ?_⟩
  · rw [hreq]
    simp [submissionRequests, List.map_map, Function.comp_def]
  · intro r hr
    rw [hreq] at hr
    simp only [submissionRequests, List.mem_map] at hr
    obtain ⟨k, _, rfl⟩ := hr
    exact ⟨rfl, rfl⟩
  · intro ht r hr
    rw [hreq] at hr
    simp only [submissionRequests, List.mem_map] at hr
    obtain ⟨k, _, rfl⟩ := hr
    rw [ht]

/-- Witness for C9_shared_window_uppercase at coinciding clock readings. -/
theorem C9_shared_window_uppercase_witness :
    ∃ dr, analyze_device "Dev" 0 0 okPostNet okGetNet = Except.ok dr
      ∧ dr.requests.map (fun r => (r.agentId, r.type))
          = analysisTypes.map (fun k => ("Dev", k.toUpper))
      ∧ (∀ r ∈ dr.requests,
          r.fromMs = toString ((0 : Int) - 7200000) ∧ r.toMs = toString (0 : Int))
      ∧ (∀ r ∈ dr.requests, r.fromMs = toString ((0 : Int) - 7200000)) := by
  obtain ⟨dr, hdr⟩ : ∃ dr, analyze_device "Dev" 0 0 okPostNet okGetNet = Except.ok dr :=
    ⟨_, rfl⟩
  have hc := C9_shared_window_uppercase "Dev" 0 0 okPostNet okGetNet dr hdr
  exact ⟨dr, hdr, hc.1, hc.2.1, hc.2.2 rfl⟩

/-! ## C3: an escaping pipeline fault halts the org run -/

/-- C3, behavior of the code at the failing input: devices D1 and D2, where
D1's Roaming submit task raises an exception that is not an
aiohttp.ClientError.  asyncio.gather(return_exceptions=True) hands the
exception object back, the tuple unpacking raises TypeError, analyze_device
propagates it, and the org loop halts: the result map is empty — D1 gets no
all-failed DeviceResult, and D2 is never attempted — and no progress is
emitted, contradicting the claimed containment. -/
theorem C3_escaping_fault_halts_org_run :
    orgRun (fun d => if d = "D1" then analyze_device "D1" 0 0 roamingRaisesPostNet okGetNet
                     else analyze_device d 0 0 okPostNet okGetNet)
      [("Agent1", "N1", "D1"), ("Agent2", "N2", "D2")]
      = ([], [], some unpackError) := rfl

/-! ## C8: org-wide progress and result keys -/

/-- When every pipeline in the remaining list returns normally, the loop
finishes with no escaped exception, stores one entry per device in list
order, and emits the progress value (index + 1) / total after each
device. -/
theorem orgRunLoop_all_ok (pipeline : String → Except String DeviceRun) (total : Nat) :
    ∀ (l : List OrgDevice), (∀ d ∈ l, ∃ dr, pipeline d.2.2 = Except.ok dr) →
      ∀ i, (orgRunLoop pipeline total i l).2.2 = none
        ∧ (orgRunLoop pipeline total i l).1.map Prod.fst = l.map (fun d => d.2.2)
        ∧ (orgRunLoop pipeline total i l).2.1
            = (List.range l.length).map fun j => (((i + j : Nat) : ℚ) + 1) / (total : ℚ) := by
  intro l
  induction l with
  | nil => intro _ i; exact ⟨rfl, rfl, rfl⟩
  | cons d rest ih =>
    intro hok i
    obtain ⟨dr, hdr⟩ := hok d (List.mem_cons_self d rest)
    have hrest := ih (fun x hx => hok x (List.mem_cons_of_mem d hx)) (i + 1)
    refine ⟨?_, ?_, ?_⟩
    · simp [orgRunLoop, hdr, hrest.1]
    · simp [orgRunLoop, hdr, hrest.2.1]
    · simp only [orgRunLoop, hdr, hrest.2.2, List.length_cons, List.range_succ_eq_map,
        List.map_cons, List.map_map]
      congr 1
      apply List.map_congr_left
      intro a _
      simp only [Function.comp_apply]
      push_cast
      ring

/-- C8: over a nonempty device list with distinct ids whose pipelines all
terminate normally, the org run finishes, stores exactly one entry per
device (M distinct keys), emits progress (completed count)/(total count)
after each device, the emitted sequence is monotonically non-decreasing,
and its last value is exactly 1. -/
theorem C8_org_progress_and_keys (devices : List OrgDevice)
    (pipeline : String → Except String DeviceRun)
    (hM : 0 < devices.length)
    (hnd : (devices.map fun d => d.2.2).Nodup)
    (hok : ∀ d ∈ devices, ∃ dr, pipeline d.2.2 = Except.ok dr) :
    (orgRun pipeline devices).2.2 = none
    ∧ (orgRun pipeline devices).1.map Prod.fst = devices.map (fun d => d.2.2)
    ∧ ((orgRun pipeline devices).1.map Prod.fst).Nodup
    ∧ (orgRun pipeline devices).1.length = devices.length
    ∧ (orgRun pipeline devices).2.1
        = (List.range devices.length).map
            (fun (j : Nat) => ((j : ℚ) + 1) / (devices.length : ℚ))
    ∧ (orgRun pipeline devices).2.1.Pairwise (· ≤ ·)
    ∧ (orgRun pipeline devices).2.1.getLast? = some 1 := by
  have h := orgRunLoop_all_ok pipeline devices.length devices hok 0
  have hprog : (orgRun pipeline devices).2.1
      = (List.range devices.length).map
          (fun (j : Nat) => ((j : ℚ) + 1) / (devices.length : ℚ)) := by
    rw [orgRun, h.2.2]
    congr 1
    funext j
    rw [Nat.zero_add]
  have hlen : (orgRun pipeline devices).1.length = devices.length := by
    have := congrArg List.length h.2.1
    simpa using this
  have hMq : (0 : ℚ) < (devices.length : ℚ) := by exact_mod_cast hM
  refine ⟨h.1, h.2.1, h.2.1 ▸ hnd, hlen, hprog, ?_, ?_⟩
  · rw [hprog]
    refine List.Pairwise.map _ ?_ (List.pairwise_lt_range devices.length)
    intro a b hab
    have hc : ((a : ℚ)) ≤ (b : ℚ) := by exact_mod_cast hab.le
    gcongr
  · rw [hprog]
    obtain ⟨m, hm⟩ := Nat.exists_eq_succ_of_ne_zero hM.ne'
    rw [hm, List.range_succ, List.map_append, List.map_singleton,
      List.getLast?_concat]
    congr 1
    rw [div_eq_one_iff_eq (by exact_mod_cast Nat.succ_ne_zero m)]
    push_cast
    ring

/-- Witness for C8 at two devices whose pipelines all succeed. -/
theorem C8_org_progress_and_keys_witness :
    (orgRun (fun d => analyze_device d 0 0 okPostNet okGetNet)
      [("Agent1", "N1", "D1"), ("Agent2", "N2", "D2")]).2.2 = none
    ∧ ((orgRun (fun d => analyze_device d 0 0 okPostNet okGetNet)
      [("Agent1", "N1", "D1"), ("Agent2", "N2", "D2")]).1.map Prod.fst).Nodup
    ∧ (orgRun (fun d => analyze_device d 0 0 okPostNet okGetNet)
      [("Agent1", "N1", "D1"), ("Agent2", "N2", "D2")]).1.length = 2
    ∧ (orgRun (fun d => analyze_device d 0 0 okPostNet okGetNet)
      [("Agent1", "N1", "D1"), ("Agent2", "N2", "D2")]).2.1.getLast? = some 1 := by
  have h := C8_org_progress_and_keys
    [("Agent1", "N1", "D1"), ("Agent2", "N2", "D2")]
    (fun d => analyze_device d 0 0 okPostNet okGetNet)
    (by decide) (by decide) (fun d _ => ⟨_, rfl⟩)
  exact ⟨h.1, h.2.2.1, h.2.2.2.1, h.2.2.2.2.2.2⟩
